import Mathlib

/-!
Shallow embedding of the convolution-layer construction code
(`tensorpack/models/conv2d.py`) and the training entry point
(`examples/AnytimeNetwork/imagenet-ann.py`) of the
AnytimeNeuralNetworks repository, together with proofs of the
specification claims about them.

Tensors are modelled as total value functions on `Nat` indices; the
shape is carried separately where the code inspects it
(`get_shape().as_list()` entries become `Option Nat`, `none` standing
for an unknown static dimension).  Assertion failures and Python
runtime errors that abort graph construction are modelled with
`Except String`; the list component of a result records, in order, the
variables and graph nodes the layer created before returning.
-/

namespace AnnConv

/-- A 4-D tensor as a value function on indices.  For `NHWC` data the
index order is `(n, h, w, c)`; for `NCHW` it is `(n, c, h, w)`. -/
abbrev Tensor4 := Nat → Nat → Nat → Nat → Int

/-- A 5-D tensor (intermediate result of the grouped-conv reshape). -/
abbrev Tensor5 := Nat → Nat → Nat → Nat → Nat → Int

/-- A 6-D tensor (result of exposing `[num_paths, ch_in_per_path,
path_ch_out]` inside the channel dimension). -/
abbrev Tensor6 := Nat → Nat → Nat → Nat → Nat → Nat → Int

/-- A `kernel_size` / `strides` argument: either a single int or an
`(h, w)` pair, as accepted by tensorpack's `shape2d`. -/
inductive IntOrPair
  | int : Nat → IntOrPair
  | pair : Nat → Nat → IntOrPair
deriving DecidableEq, Repr

/-- Framework helper `shape2d` (tensorpack `utils/argtools.py`):
expand an int or a pair into a 2-element list. -/
def shape2d : IntOrPair → List Nat
  | .int n => [n, n]
  | .pair a b => [a, b]

/-- Framework helper `get_data_format(..., tfmode=False)`: normalise a
data-format string to `NHWC` / `NCHW`. -/
def get_data_format (df : String) : String :=
  if df = "channels_last" ∨ df = "NHWC" then "NHWC" else "NCHW"

/-- Framework helper `shape4d`: expand a scalar/pair into a 4-element
`[1, h, w, 1]` (NHWC-like format) or `[1, 1, h, w]` (NCHW-like) list. -/
def shape4d (s : IntOrPair) (dataFormat : String) : List Nat :=
  if get_data_format dataFormat = "NHWC" then [1] ++ shape2d s ++ [1]
  else [1, 1] ++ shape2d s

/-- Leading spatial padding used by TensorFlow for a given padding
mode (`"SAME"` computes `max((out-1)*stride + k - in, 0) / 2` with
`out = ceil(in/stride)`; `"VALID"` pads nothing).  `Nat` subtraction
realises the `max` with `0`. -/
def padBegin (padding : String) (inDim k s : Nat) : Nat :=
  if padding = "VALID" then 0
  else (((inDim + s - 1) / s - 1) * s + k - inDim) / 2

/-! ### Value-level tensor operations (NHWC layout) -/

/-- Zero-padded read of an NHWC tensor at integer spatial coordinates
(the semantics of TensorFlow's implicit zero padding). -/
def padReadNHWC (x : Tensor4) (Hin Win : Nat) (n : Nat) (i j : Int) (c : Nat) : Int :=
  if 0 ≤ i ∧ i < (Hin : Int) ∧ 0 ≤ j ∧ j < (Win : Int) then x n i.toNat j.toNat c else 0

/-- `tf.nn.conv2d` in NHWC layout: weight layout `[kh, kw, cin, cout]`,
strides `(sh, sw)`, leading pads `(pt, pl)`. -/
def conv2dNHWC (x : Tensor4) (Hin Win cin : Nat) (w : Tensor4)
    (kh kw sh sw pt pl : Nat) : Tensor4 :=
  fun n h v co =>
    ∑ dh ∈ Finset.range kh, ∑ dw ∈ Finset.range kw, ∑ ci ∈ Finset.range cin,
      padReadNHWC x Hin Win n ((h * sh + dh : Int) - pt) ((v * sw + dw : Int) - pl) ci
        * w dh dw ci co

/-- `tf.nn.depthwise_conv2d` in NHWC layout: weight layout
`[kh, kw, cin, mult]`; output channel `c * mult + m` convolves input
channel `c` with multiplier column `m`. -/
def depthwiseConv2dNHWC (x : Tensor4) (Hin Win : Nat) (w : Tensor4)
    (kh kw mult sh sw pt pl : Nat) : Tensor4 :=
  fun n h v k =>
    ∑ dh ∈ Finset.range kh, ∑ dw ∈ Finset.range kw,
      padReadNHWC x Hin Win n ((h * sh + dh : Int) - pt) ((v * sw + dw : Int) - pl) (k / mult)
        * w dh dw (k / mult) (k % mult)

/-- Group `g` of `tf.split(x, split, channel_axis)` in NHWC layout,
each group holding `size` consecutive channels. -/
def splitChannelsNHWC (x : Tensor4) (size g : Nat) : Tensor4 :=
  fun n h v c => x n h v (g * size + c)

/-- `tf.concat(parts, channel_axis)` in NHWC layout of a family of
tensors with `m` channels each. -/
def concatChannelsNHWC (m : Nat) (parts : Nat → Tensor4) : Tensor4 :=
  fun n h v c => parts (c / m) n h v (c % m)

/-- `tf.nn.bias_add` in NHWC layout. -/
def biasAddNHWC (x : Tensor4) (b : Nat → Int) : Tensor4 :=
  fun n h v c => x n h v c + b c

/-- Reshape `[-1, H, W, P*Q*M]` to `[-1, H, W, P, Q, M]` (the
`GroupedConv2D` reshape exposing `[num_paths, ch_in_per_path,
path_ch_out]`). -/
def reshapeExposeNHWC (t : Tensor4) (q m : Nat) : Tensor6 :=
  fun n h v p j c => t n h v (p * (q * m) + (j * m + c))

/-- `tf.reduce_sum` over the per-path input-channel axis (axis 4) of
the exposed 6-D tensor. -/
def reduceSumChanNHWC (t : Tensor6) (q : Nat) : Tensor5 :=
  fun n h v p c => ∑ j ∈ Finset.range q, t n h v p j c

/-- Reshape `[-1, H, W, P, M]` back to `[-1, H, W, P*M]`. -/
def reshapeCollapseNHWC (t : Tensor5) (m : Nat) : Tensor4 :=
  fun n h v k => t n h v (k / m) (k % m)

/-! ### Value-level tensor operations (NCHW layout) -/

/-- Zero-padded read of an NCHW tensor at integer spatial coordinates. -/
def padReadNCHW (x : Tensor4) (Hin Win : Nat) (n : Nat) (i j : Int) (c : Nat) : Int :=
  if 0 ≤ i ∧ i < (Hin : Int) ∧ 0 ≤ j ∧ j < (Win : Int) then x n c i.toNat j.toNat else 0

/-- `tf.nn.conv2d` in NCHW layout (weight layout is `[kh, kw, cin,
cout]` for every data format). -/
def conv2dNCHW (x : Tensor4) (Hin Win cin : Nat) (w : Tensor4)
    (kh kw sh sw pt pl : Nat) : Tensor4 :=
  fun n co h v =>
    ∑ dh ∈ Finset.range kh, ∑ dw ∈ Finset.range kw, ∑ ci ∈ Finset.range cin,
      padReadNCHW x Hin Win n ((h * sh + dh : Int) - pt) ((v * sw + dw : Int) - pl) ci
        * w dh dw ci co

/-- `tf.nn.depthwise_conv2d` in NCHW layout. -/
def depthwiseConv2dNCHW (x : Tensor4) (Hin Win : Nat) (w : Tensor4)
    (kh kw mult sh sw pt pl : Nat) : Tensor4 :=
  fun n k h v =>
    ∑ dh ∈ Finset.range kh, ∑ dw ∈ Finset.range kw,
      padReadNCHW x Hin Win n ((h * sh + dh : Int) - pt) ((v * sw + dw : Int) - pl) (k / mult)
        * w dh dw (k / mult) (k % mult)

/-- Group `g` of `tf.split(x, split, 1)` in NCHW layout. -/
def splitChannelsNCHW (x : Tensor4) (size g : Nat) : Tensor4 :=
  fun n c h v => x n (g * size + c) h v

/-- `tf.concat(parts, 1)` in NCHW layout. -/
def concatChannelsNCHW (m : Nat) (parts : Nat → Tensor4) : Tensor4 :=
  fun n k h v => parts (k / m) n (k % m) h v

/-- `tf.nn.bias_add` in NCHW layout. -/
def biasAddNCHW (x : Tensor4) (b : Nat → Int) : Tensor4 :=
  fun n c h v => x n c h v + b c

/-- Reshape `[-1, P*Q*M, H, W]` to `[-1, P, Q, M, H, W]`. -/
def reshapeExposeNCHW (t : Tensor4) (q m : Nat) : Tensor6 :=
  fun n p j c h v => t n (p * (q * m) + (j * m + c)) h v

/-- `tf.reduce_sum` over the per-path input-channel axis (axis 2) of
the exposed 6-D tensor. -/
def reduceSumChanNCHW (t : Tensor6) (q : Nat) : Tensor5 :=
  fun n p c h v => ∑ j ∈ Finset.range q, t n p j c h v

/-- Reshape `[-1, P, M, H, W]` back to `[-1, P*M, H, W]`. -/
def reshapeCollapseNCHW (t : Tensor5) (m : Nat) : Tensor4 :=
  fun n k h v => t n (k / m) (k % m) h v

/-! ### Layer results, variable holders and abort modelling -/

/-- The arguments the `split == 1` branch of `Conv2D` forwards to the
underlying `tf.layers.Conv2D` constructor. -/
structure TFLayersConv2DArgs where
  filters : Nat
  kernelSize : IntOrPair
  strides : IntOrPair
  padding : String
  dataFormat : String
  dilationRate : Nat × Nat
  useBias : Bool
  kernelRegularizer : Option Nat
  biasRegularizer : Option Nat
  activityRegularizer : Option Nat
deriving DecidableEq, Repr

/-- The `variables` attribute attached to a layer's output
(`VariableHolder(W=...)`, plus `b` exactly when it was created):
recorded here by the static shapes of the created variables. -/
structure VarHolder where
  Wshape : List Nat
  b : Option (List Nat)
deriving DecidableEq, Repr

/-- A successfully constructed layer output: the tensor named by
`tf.identity(..., name='output')` (or the activation's `name=` kwarg),
its optional `variables` attribute, the optional `info` attribute
(`VariableHolder(flops=...)`), and, for the `split == 1` branch of
`Conv2D`, the record of constructor arguments forwarded to
`tf.layers.Conv2D`. -/
structure LayerOut where
  name : String
  out : Tensor4
  vars : Option VarHolder
  info : Option ℚ
  layer : Option TFLayersConv2DArgs

/-- Creation events recorded during layer construction, in program
order: `var:`-entries are `tf.get_variable` / layer-variable
creations, `node:output` is the creation of the output node. -/
abbrev Trace := List String

/-- Python's `%` on nonnegative ints: raises `ZeroDivisionError` on a
zero modulus, which aborts construction like a failed assert. -/
def pyMod (a b : Nat) : Except String Nat :=
  if b = 0 then .error "ZeroDivisionError: integer division or modulo by zero"
  else .ok (a % b)

/-- A layer call that aborted: nothing was created and an exception
escaped. -/
def aborted (r : Trace × Except String LayerOut) : Prop :=
  r.1 = [] ∧ ∃ e, r.2 = Except.error e

/-- Whether a layer call returned normally. -/
def constructed : Except String LayerOut → Bool
  | .ok _ => true
  | .error _ => false

/-- The output tensor of a successful layer call (zero tensor on an
aborted call; used together with `constructed`). -/
def okOut : Except String LayerOut → Tensor4
  | .ok r => r.out
  | .error _ => fun _ _ _ _ => 0

/-- The `info.flops` attribute of a successful layer call. -/
def okInfo : Except String LayerOut → Option ℚ
  | .ok r => r.info
  | .error _ => none

/-- The `variables` attribute of a successful layer call. -/
def okVars : Except String LayerOut → Option VarHolder
  | .ok r => r.vars
  | .error _ => none

/-- The output node name of a successful layer call. -/
def okName : Except String LayerOut → String
  | .ok r => r.name
  | .error _ => ""

/-- The forwarded `tf.layers.Conv2D` constructor arguments of a
successful layer call. -/
def okLayer : Except String LayerOut → Option TFLayersConv2DArgs
  | .ok r => r.layer
  | .error _ => none

/-! ### GroupedConv2D (`conv2d.py`, lines 224-300) -/

/-- The per-path input-channel count `ch_in // num_paths` computed by
`GroupedConv2D` (line 255). -/
def chInPerPath (chIn numPaths : Nat) : Nat := chIn / numPaths

/-- Embedding of `GroupedConv2D`.  `x` is the input tensor's value
function, `inShape` its static 4-entry shape, `Hin`/`Win` its runtime
spatial extent; `Wval`/`bval` are the values the created variables
take; the remaining parameters mirror the Python signature.  Results
pair the creation trace with either the layer output or the exception
that aborted construction. -/
def GroupedConv2D (x : Tensor4) (inShape : List (Option Nat)) (Hin Win : Nat)
    (numPaths pathChOut : Nat) (kernelShape : IntOrPair) (sumPaths : Bool)
    (padding : String) (stride : IntOrPair) (Wval : Tensor4) (bval : Nat → Int)
    (nl : Int → Int) (useBias : Bool) (dataFormat : String) :
    Trace × Except String LayerOut :=
  let df := get_data_format dataFormat
  let chDim := if df = "NHWC" then 3 else 1
  match inShape.getD chDim none with
  | none => ([], .error "TypeError: unsupported operand type(s) for %")
  | some chIn =>
    match pyMod chIn numPaths with
    | .error e => ([], .error e)
    | .ok r =>
      if r ≠ 0 then
        ([], .error "AssertionError: Grouped conv requires n_groups to divide ch_in")
      else
        let q := chInPerPath chIn numPaths
        let chOut := if sumPaths then pathChOut else numPaths * pathChOut
        let ks := shape2d kernelShape
        let kh := ks.getD 0 0
        let kw := ks.getD 1 0
        let pad := padding.toUpper
        let filterShape := ks ++ [chIn, pathChOut]
        let strideL := shape4d stride df
        let sh := strideL.getD (if df = "NHWC" then 1 else 2) 0
        let sw := strideL.getD (if df = "NHWC" then 2 else 3) 0
        let pt := padBegin pad Hin kh sh
        let pl := padBegin pad Win kw sw
        let res : Tensor4 :=
          if df = "NHWC" then
            let dwOut := depthwiseConv2dNHWC x Hin Win Wval kh kw pathChOut sh sw pt pl
            let exposed := reshapeExposeNHWC dwOut q pathChOut
            if sumPaths then
              fun n h v m =>
                ∑ p ∈ Finset.range numPaths, ∑ j ∈ Finset.range q, exposed n h v p j m
            else
              reshapeCollapseNHWC (reduceSumChanNHWC exposed q) pathChOut
          else
            let dwOut := depthwiseConv2dNCHW x Hin Win Wval kh kw pathChOut sh sw pt pl
            let exposed := reshapeExposeNCHW dwOut q pathChOut
            if sumPaths then
              fun n m h v =>
                ∑ p ∈ Finset.range numPaths, ∑ j ∈ Finset.range q, exposed n p j m h v
            else
              reshapeCollapseNCHW (reduceSumChanNCHW exposed q) pathChOut
        let withBias :=
          if useBias then
            (if df = "NHWC" then biasAddNHWC res bval else biasAddNCHW res bval)
          else res
        let outT : Tensor4 := fun a b c d => nl (withBias a b c d)
        (["var:W"] ++ (if useBias then ["var:b"] else []) ++ ["node:output"],
         .ok { name := "output", out := outT,
               vars := some ⟨filterShape, if useBias then some [chOut] else none⟩,
               info := none, layer := none })

/-- Slice `g` of `tf.split(W, split, 3)`: a kernel slice along the
fourth (output-channel) axis, each slice `m` output channels wide. -/
def kernelSliceAxis3 (w : Tensor4) (m g : Nat) : Tensor4 :=
  fun dh dw j c => w dh dw j (g * m + c)

/-- Kernel slice `g` along the third (input-channel) axis of a
depthwise weight `[kh, kw, ch_in, path_ch_out]`, each slice `q` input
channels deep: the per-group kernel of shape
`[kh, kw, ch_in/num_paths, path_ch_out]` named by the specification. -/
def kernelSliceAxis2 (w : Tensor4) (q g : Nat) : Tensor4 :=
  fun dh dw j c => w dh dw (g * q + j) c

/-- Reference grouped convolution (NHWC), written from the
specification's description: split the input into `numPaths` equal
channel groups, convolve group `g` with its own kernel slice of shape
`[kh, kw, chIn/numPaths, pathChOut]`, and concatenate the results
along the channel axis.  Kernel, stride and padding geometry are
derived exactly as the layer derives them. -/
def refGroupedConvNHWC (x : Tensor4) (Hin Win : Nat) (numPaths pathChOut chIn : Nat)
    (kernelShape : IntOrPair) (padding : String) (stride : IntOrPair)
    (w : Tensor4) : Tensor4 :=
  let q := chIn / numPaths
  let ks := shape2d kernelShape
  let kh := ks.getD 0 0
  let kw := ks.getD 1 0
  let strideL := shape4d stride "NHWC"
  let sh := strideL.getD 1 0
  let sw := strideL.getD 2 0
  let pt := padBegin padding.toUpper Hin kh sh
  let pl := padBegin padding.toUpper Win kw sw
  concatChannelsNHWC pathChOut fun g =>
    conv2dNHWC (splitChannelsNHWC x q g) Hin Win q (kernelSliceAxis2 w q g)
      kh kw sh sw pt pl

/-- Reference grouped convolution in NCHW layout. -/
def refGroupedConvNCHW (x : Tensor4) (Hin Win : Nat) (numPaths pathChOut chIn : Nat)
    (kernelShape : IntOrPair) (padding : String) (stride : IntOrPair)
    (w : Tensor4) : Tensor4 :=
  let q := chIn / numPaths
  let ks := shape2d kernelShape
  let kh := ks.getD 0 0
  let kw := ks.getD 1 0
  let strideL := shape4d stride "NCHW"
  let sh := strideL.getD 2 0
  let sw := strideL.getD 3 0
  let pt := padBegin padding.toUpper Hin kh sh
  let pl := padBegin padding.toUpper Win kw sw
  concatChannelsNCHW pathChOut fun g =>
    conv2dNCHW (splitChannelsNCHW x q g) Hin Win q (kernelSliceAxis2 w q g)
      kh kw sh sw pt pl

/-! ### Conv2D (`conv2d.py`, lines 15-131) -/

/-- Shape-list index of the channel axis in the `split == 1` branch of
`Conv2D` (line 77). -/
def conv2dChannelAxis (dataFormat : String) : Nat :=
  if dataFormat = "channels_last" then 3 else 1

/-- Shape-list index of the spatial height used by the flop
computation (line 78); the width index is `conv2dHDim + 1`. -/
def conv2dHDim (dataFormat : String) : Nat :=
  if dataFormat = "channels_last" then 1 else 2

/-- Embedding of `Conv2D`.  `applyLayer` stands for the framework's
`tf.layers.Conv2D(...).apply`, receiving exactly the constructor
arguments the code forwards; `Wval`/`bval` are the values the
variables of the `split > 1` branch take; `tfGE15` is the
`get_tf_version_number() >= 1.5` test. -/
def Conv2D (x : Tensor4) (inShape : List (Option Nat)) (Hin Win : Nat)
    (filters : Nat) (kernelSize : IntOrPair) (strides : IntOrPair)
    (padding : String) (dataFormat : String) (dilationRate : Nat × Nat)
    (activation : Option (Int → Int)) (useBias : Bool)
    (kernelReg biasReg activityReg : Option Nat) (split : Nat)
    (Wval : Tensor4) (bval : Nat → Int) (tfGE15 : Bool)
    (applyLayer : TFLayersConv2DArgs → Tensor4 → Tensor4) :
    Trace × Except String LayerOut :=
  if split = 1 then
    let largs : TFLayersConv2DArgs :=
      { filters := filters, kernelSize := kernelSize, strides := strides,
        padding := padding, dataFormat := dataFormat, dilationRate := dilationRate,
        useBias := useBias, kernelRegularizer := kernelReg,
        biasRegularizer := biasReg, activityRegularizer := activityReg }
    let outT := applyLayer largs x
    let trace := ["var:W"] ++ (if useBias then ["var:b"] else []) ++ ["node:output"]
    let hDim := conv2dHDim dataFormat
    match inShape.getD (conv2dChannelAxis dataFormat) none with
    | none => (trace, .error "TypeError: unsupported operand type(s) for *")
    | some inChannel =>
      let ks := shape2d kernelSize
      let strideL := shape4d strides dataFormat
      let flops0 : ℚ := 1 * inChannel * filters * ks.getD 0 0 * ks.getD 1 0
      let vh : VarHolder := ⟨ks ++ [inChannel, filters],
                             if useBias then some [filters] else none⟩
      match inShape.getD hDim none with
      | some hv =>
        if 0 < hv then
          match inShape.getD (hDim + 1) none with
          | none => (trace, .error "TypeError: unsupported operand type(s) for *")
          | some wv =>
            let fl : ℚ :=
              flops0 * ((hv : ℚ) * wv / strideL.getD hDim 0 / strideL.getD (hDim + 1) 0)
            (trace, .ok { name := "output", out := outT, vars := some vh,
                          info := some fl, layer := some largs })
        else
          (trace, .ok { name := "output", out := outT, vars := some vh,
                        info := some flops0, layer := some largs })
      | none =>
        (trace, .ok { name := "output", out := outT, vars := some vh,
                      info := some flops0, layer := some largs })
  else
    let df := get_data_format dataFormat
    match inShape.getD (if df = "NHWC" then 3 else 1) none with
    | none => ([], .error "AssertionError: [Conv2D] Input cannot have unknown channel!")
    | some inChannel =>
      match pyMod inChannel split with
      | .error e => ([], .error e)
      | .ok r1 =>
        if r1 ≠ 0 then ([], .error "AssertionError: in_channel % split == 0")
        else if kernelReg.isSome || biasReg.isSome || activityReg.isSome then
          ([], .error "AssertionError: Not supported by group conv now!")
        else
          match pyMod filters split with
          | .error e => ([], .error e)
          | .ok r2 =>
            if r2 ≠ 0 then ([], .error "AssertionError: out_channel % split == 0")
            else if ¬(dilationRate = (1, 1) ∨ tfGE15 = true) then
              ([], .error "AssertionError: TF>=1.5 required for group dilated conv")
            else
              let ks := shape2d kernelSize
              let kh := ks.getD 0 0
              let kw := ks.getD 1 0
              let filterShape := ks ++ [inChannel / split, filters]
              let strideL := shape4d strides df
              let sh := strideL.getD (if df = "NHWC" then 1 else 2) 0
              let sw := strideL.getD (if df = "NHWC" then 2 else 3) 0
              let q := inChannel / split
              let mOut := filters / split
              let pt := padBegin padding.toUpper Hin kh sh
              let pl := padBegin padding.toUpper Win kw sw
              let convT : Tensor4 :=
                if df = "NHWC" then
                  concatChannelsNHWC mOut (fun g =>
                    conv2dNHWC (splitChannelsNHWC x q g) Hin Win q
                      (kernelSliceAxis3 Wval mOut g) kh kw sh sw pt pl)
                else
                  concatChannelsNCHW mOut (fun g =>
                    conv2dNCHW (splitChannelsNCHW x q g) Hin Win q
                      (kernelSliceAxis3 Wval mOut g) kh kw sh sw pt pl)
              let act := activation.getD id
              let preAct :=
                if useBias then
                  (if df = "NHWC" then biasAddNHWC convT bval else biasAddNCHW convT bval)
                else convT
              let outT : Tensor4 := fun a b c d => act (preAct a b c d)
              (["var:W"] ++ (if useBias then ["var:b"] else []) ++ ["node:output"],
               .ok { name := "output", out := outT,
                     vars := some ⟨filterShape, if useBias then some [filters] else none⟩,
                     info := none, layer := none })

/-! ### Conv2DTranspose and ResizeImages (`conv2d.py`, lines 134-221) -/

/-- Embedding of `Conv2DTranspose` (also exported as `Deconv2D`): a
thin wrapper whose output tensor is the framework layer's `apply`
(abstracted as `applyLayer`), renamed to `output`, with a
`VariableHolder` carrying `W` and, iff `use_bias`, `b`.  A transposed
convolution's kernel has static shape `[kh, kw, filters, in_ch]`. -/
def Conv2DTranspose (x : Tensor4) (filters : Nat) (kernelSize : IntOrPair)
    (useBias : Bool) (inChannel : Nat) (applyLayer : Tensor4 → Tensor4) : LayerOut :=
  { name := "output", out := applyLayer x,
    vars := some ⟨shape2d kernelSize ++ [filters, inChannel],
                  if useBias then some [filters] else none⟩,
    info := none, layer := none }

/-- `tf.transpose(l, [0, 2, 3, 1])`: NCHW to NHWC. -/
def transposeToNHWC (x : Tensor4) : Tensor4 :=
  fun n h w c => x n c h w

/-- `tf.transpose(l, [0, 3, 1, 2])`: NHWC to NCHW. -/
def transposeToNCHW (x : Tensor4) : Tensor4 :=
  fun n c h w => x n h w c

/-- Embedding of `ResizeImages`.  `resize` stands for
`tf.image.resize_images(·, size, method, align_corners)`, which only
accepts channels-last data; the layer transposes around it when the
data format is `channels_first` and attaches no `variables`. -/
def ResizeImages (images : Tensor4) (resize : Tensor4 → Tensor4)
    (dataFormat : String) : LayerOut :=
  let l0 := if dataFormat = "channels_first" then transposeToNHWC images else images
  let l1 := resize l0
  let l2 := if dataFormat = "channels_first" then transposeToNCHW l1 else l1
  { name := "output", out := l2, vars := none, info := none, layer := none }

/-! ### Training entry point (`imagenet-ann.py`) -/

/-- Observable steps of the `__main__` block of `imagenet-ann.py` and
of `get_config`, in program order. -/
inductive MainEvent
  | parseArgs
  | setLogRoot
  | autoSetDir
  | getDataTrain
  | getDataVal
  | buildModel
  | classificationCallbacks
  | lossSelectCallbacks
  | makeTrainConfig
  | sessionInit
  | setNrTower
  | train
deriving DecidableEq, Repr

/-- The command-line arguments the entry point inspects. -/
structure AnnArgs where
  init_channel : Nat
  num_classes : Nat
  is_toy : Bool
  load : Option String
  loadExists : Bool
  nr_gpu : Nat
deriving DecidableEq, Repr

/-- Steps performed by `get_config` (lines 40-66): dataset iterators
(train then validation, the toy flag only changing which split is
loaded), model instantiation, the two callback computations, and the
`TrainConfig` construction. -/
def getConfigTrace (_ : AnnArgs) : List MainEvent :=
  [.getDataTrain, .getDataVal, .buildModel, .classificationCallbacks,
   .lossSelectCallbacks, .makeTrainConfig]

/-- Embedding of the `__main__` block (lines 86-123): argument
parsing, the `init_channel`/`num_classes` asserts (the two later
asserts hold by construction because the checked attributes are
assigned on the two preceding lines), log-directory setup,
`get_config`, the conditional `SaverRestore`, `nr_tower` assignment,
and the trainer invocation.  The result pairs the executed steps with
either success or the escaping `AssertionError`. -/
def imagenetAnnMain (a : AnnArgs) : List MainEvent × Except String Unit :=
  let t0 := [MainEvent.parseArgs]
  if a.init_channel ≠ 64 then (t0, .error "AssertionError: args.init_channel == 64")
  else if a.num_classes ≠ 1000 then (t0, .error "AssertionError: args.num_classes == 1000")
  else
    let t1 := t0 ++ [.setLogRoot, .autoSetDir]
    let t2 := t1 ++ getConfigTrace a
    let t3 := t2 ++ (if a.load.isSome && a.loadExists then [.sessionInit] else [])
    (t3 ++ [.setNrTower, .train], .ok ())

/-! ### Parameter packs for the claim statements -/

/-- The full argument list of a `Conv2D` call, bundled. -/
structure Conv2DIn where
  x : Tensor4
  inShape : List (Option Nat)
  Hin : Nat
  Win : Nat
  filters : Nat
  kernelSize : IntOrPair
  strides : IntOrPair
  padding : String
  dataFormat : String
  dilationRate : Nat × Nat
  activation : Option (Int → Int)
  useBias : Bool
  kernelReg : Option Nat
  biasReg : Option Nat
  activityReg : Option Nat
  split : Nat
  Wval : Tensor4
  bval : Nat → Int
  tfGE15 : Bool
  applyLayer : TFLayersConv2DArgs → Tensor4 → Tensor4

/-- Run `Conv2D` on a bundled argument list. -/
def runConv2D (i : Conv2DIn) : Trace × Except String LayerOut :=
  Conv2D i.x i.inShape i.Hin i.Win i.filters i.kernelSize i.strides i.padding
    i.dataFormat i.dilationRate i.activation i.useBias i.kernelReg i.biasReg
    i.activityReg i.split i.Wval i.bval i.tfGE15 i.applyLayer

/-- The full argument list of a `GroupedConv2D` call, bundled. -/
structure GroupedIn where
  x : Tensor4
  inShape : List (Option Nat)
  Hin : Nat
  Win : Nat
  numPaths : Nat
  pathChOut : Nat
  kernelShape : IntOrPair
  sumPaths : Bool
  padding : String
  stride : IntOrPair
  Wval : Tensor4
  bval : Nat → Int
  nl : Int → Int
  useBias : Bool
  dataFormat : String

/-- Run `GroupedConv2D` on a bundled argument list. -/
def runGroupedConv2D (g : GroupedIn) : Trace × Except String LayerOut :=
  GroupedConv2D g.x g.inShape g.Hin g.Win g.numPaths g.pathChOut g.kernelShape
    g.sumPaths g.padding g.stride g.Wval g.bval g.nl g.useBias g.dataFormat

/-- Shape-list index of the channel axis used by the group-conv
branches (`-1`, i.e. `3`, for NHWC; `1` for NCHW). -/
def groupChannelAxis (dataFormat : String) : Nat :=
  if get_data_format dataFormat = "NHWC" then 3 else 1

/-! ### Concrete sample inputs used by the witness theorems -/

/-- Constant-one tensor. -/
def oneT : Tensor4 := fun _ _ _ _ => 1

/-- Zero bias values. -/
def zeroB : Nat → Int := fun _ => 0

/-- The identity as a stand-in for `tf.image.resize_images`. -/
def idResize : Tensor4 → Tensor4 := fun t => t

/-- The identity as a per-slice spatial resize. -/
def idSpatial : (Nat → Nat → Int) → Nat → Nat → Int := fun f => f

/-- A well-formed `split = 1` call of `Conv2D` on a `[N, 2, 2, 3]`
input with all three regularizers supplied. -/
def convSample1 : Conv2DIn :=
  { x := oneT, inShape := [none, some 2, some 2, some 3], Hin := 2, Win := 2,
    filters := 4, kernelSize := .int 1, strides := .int 1, padding := "same",
    dataFormat := "channels_last", dilationRate := (1, 1), activation := none,
    useBias := true, kernelReg := some 7, biasReg := some 8, activityReg := some 9,
    split := 1, Wval := oneT, bval := zeroB, tfGE15 := true,
    applyLayer := fun _ t => t }

/-- `convSample1` with zero static height. -/
def convSampleH0 : Conv2DIn :=
  { convSample1 with inShape := [none, some 0, some 2, some 3] }

/-- `convSample1` with unknown static width but known positive height. -/
def convSampleWNone : Conv2DIn :=
  { convSample1 with inShape := [none, some 2, none, some 3] }

/-- A well-formed `split = 2` group-conv call of `Conv2D` on a
`[N, 2, 2, 4]` input. -/
def convSample2 : Conv2DIn :=
  { convSample1 with
      inShape := [none, some 2, some 2, some 4],
      useBias := false, kernelReg := none, biasReg := none,
      activityReg := none, split := 2 }

/-- `convSample2` with a group count that divides neither the channel
count nor `filters`. -/
def convSampleBad : Conv2DIn := { convSample2 with split := 3 }

/-- `convSample2` with a regularizer supplied. -/
def convSampleReg : Conv2DIn := { convSample2 with kernelReg := some 5 }

/-- A well-formed `GroupedConv2D` call on a `[N, 2, 2, 4]` input. -/
def groupedSample : GroupedIn :=
  { x := oneT, inShape := [none, some 2, some 2, some 4], Hin := 2, Win := 2,
    numPaths := 2, pathChOut := 1, kernelShape := .int 1, sumPaths := false,
    padding := "SAME", stride := .int 1, Wval := oneT, bval := zeroB,
    nl := id, useBias := false, dataFormat := "NHWC" }

/-- `groupedSample` with a group count not dividing the channels. -/
def groupedSampleBad : GroupedIn := { groupedSample with numPaths := 3 }

/-- Parsed arguments that pass the entry point's assertions. -/
def annArgsOk : AnnArgs :=
  { init_channel := 64, num_classes := 1000, is_toy := false, load := none,
    loadExists := false, nr_gpu := 1 }

/-- Parsed arguments with a rejected `init_channel`. -/
def annArgsBad : AnnArgs := { annArgsOk with init_channel := 32 }

/-! ### Index arithmetic for the grouped-convolution reshape -/

theorem expose_index_div (g j r M q : Nat) (hr : r < M) :
    (g * (q * M) + (j * M + r)) / M = g * q + j := by
  have hM : 0 < M := lt_of_le_of_lt (Nat.zero_le r) hr
  have h1 : g * (q * M) + (j * M + r) = r + (g * q + j) * M := by ring
  rw [h1, Nat.add_mul_div_right _ _ hM, Nat.div_eq_of_lt hr, Nat.zero_add]

theorem expose_index_mod (g j r M q : Nat) (hr : r < M) :
    (g * (q * M) + (j * M + r)) % M = r := by
  have h1 : g * (q * M) + (j * M + r) = r + (g * q + j) * M := by ring
  rw [h1, Nat.add_mul_mod_self_right, Nat.mod_eq_of_lt hr]

theorem padRead_split_NHWC (x : Tensor4) (Hin Win size g n : Nat) (i j : Int) (c : Nat) :
    padReadNHWC (splitChannelsNHWC x size g) Hin Win n i j c
      = padReadNHWC x Hin Win n i j (g * size + c) := by
  unfold padReadNHWC splitChannelsNHWC
  split_ifs <;> rfl

theorem padRead_split_NCHW (x : Tensor4) (Hin Win size g n : Nat) (i j : Int) (c : Nat) :
    padReadNCHW (splitChannelsNCHW x size g) Hin Win n i j c
      = padReadNCHW x Hin Win n i j (g * size + c) := by
  unfold padReadNCHW splitChannelsNCHW
  split_ifs <;> rfl

/-- Core of claim C1 in NHWC layout: the depthwise-convolve /
reshape / reduce-sum / reshape pipeline of `GroupedConv2D` computes,
channel by channel, the concatenation of per-group convolutions. -/
theorem grouped_pipeline_eq_concat_NHWC (x w : Tensor4) (Hin Win q M kh kw sh sw pt pl : Nat)
    (hM : 0 < M) (n h v k : Nat) :
    reshapeCollapseNHWC (reduceSumChanNHWC (reshapeExposeNHWC
        (depthwiseConv2dNHWC x Hin Win w kh kw M sh sw pt pl) q M) q) M n h v k
      = concatChannelsNHWC M (fun g =>
          conv2dNHWC (splitChannelsNHWC x q g) Hin Win q (kernelSliceAxis2 w q g)
            kh kw sh sw pt pl) n h v k := by
  unfold reshapeCollapseNHWC reduceSumChanNHWC reshapeExposeNHWC depthwiseConv2dNHWC
    concatChannelsNHWC conv2dNHWC kernelSliceAxis2
  have hkM : k % M < M := Nat.mod_lt _ hM
  calc
    ∑ j ∈ Finset.range q, ∑ dh ∈ Finset.range kh, ∑ dw ∈ Finset.range kw,
        padReadNHWC x Hin Win n ((h * sh + dh : Int) - pt) ((v * sw + dw : Int) - pl)
            ((k / M * (q * M) + (j * M + k % M)) / M)
          * w dh dw ((k / M * (q * M) + (j * M + k % M)) / M)
              ((k / M * (q * M) + (j * M + k % M)) % M)
      = ∑ j ∈ Finset.range q, ∑ dh ∈ Finset.range kh, ∑ dw ∈ Finset.range kw,
          padReadNHWC x Hin Win n ((h * sh + dh : Int) - pt) ((v * sw + dw : Int) - pl)
              (k / M * q + j)
            * w dh dw (k / M * q + j) (k % M) := by
        refine Finset.sum_congr rfl fun j _ => Finset.sum_congr rfl fun dh _ =>
          Finset.sum_congr rfl fun dw _ => ?_
        rw [expose_index_div _ _ _ _ _ hkM, expose_index_mod _ _ _ _ _ hkM]
    _ = ∑ dh ∈ Finset.range kh, ∑ dw ∈ Finset.range kw, ∑ j ∈ Finset.range q,
          padReadNHWC x Hin Win n ((h * sh + dh : Int) - pt) ((v * sw + dw : Int) - pl)
              (k / M * q + j)
            * w dh dw (k / M * q + j) (k % M) := by
        rw [Finset.sum_comm]
        exact Finset.sum_congr rfl fun dh _ => Finset.sum_comm
    _ = ∑ dh ∈ Finset.range kh, ∑ dw ∈ Finset.range kw, ∑ ci ∈ Finset.range q,
          padReadNHWC (splitChannelsNHWC x q (k / M)) Hin Win n
              ((h * sh + dh : Int) - pt) ((v * sw + dw : Int) - pl) ci
            * w dh dw (k / M * q + ci) (k % M) := by
        refine Finset.sum_congr rfl fun dh _ => Finset.sum_congr rfl fun dw _ =>
          Finset.sum_congr rfl fun ci _ => ?_
        rw [padRead_split_NHWC]

/-- Core of claim C1 in NCHW layout. -/
theorem grouped_pipeline_eq_concat_NCHW (x w : Tensor4) (Hin Win q M kh kw sh sw pt pl : Nat)
    (hM : 0 < M) (n h v k : Nat) :
    reshapeCollapseNCHW (reduceSumChanNCHW (reshapeExposeNCHW
        (depthwiseConv2dNCHW x Hin Win w kh kw M sh sw pt pl) q M) q) M n k h v
      = concatChannelsNCHW M (fun g =>
          conv2dNCHW (splitChannelsNCHW x q g) Hin Win q (kernelSliceAxis2 w q g)
            kh kw sh sw pt pl) n k h v := by
  unfold reshapeCollapseNCHW reduceSumChanNCHW reshapeExposeNCHW depthwiseConv2dNCHW
    concatChannelsNCHW conv2dNCHW kernelSliceAxis2
  have hkM : k % M < M := Nat.mod_lt _ hM
  calc
    ∑ j ∈ Finset.range q, ∑ dh ∈ Finset.range kh, ∑ dw ∈ Finset.range kw,
        padReadNCHW x Hin Win n ((h * sh + dh : Int) - pt) ((v * sw + dw : Int) - pl)
            ((k / M * (q * M) + (j * M + k % M)) / M)
          * w dh dw ((k / M * (q * M) + (j * M + k % M)) / M)
              ((k / M * (q * M) + (j * M + k % M)) % M)
      = ∑ j ∈ Finset.range q, ∑ dh ∈ Finset.range kh, ∑ dw ∈ Finset.range kw,
          padReadNCHW x Hin Win n ((h * sh + dh : Int) - pt) ((v * sw + dw : Int) - pl)
              (k / M * q + j)
            * w dh dw (k / M * q + j) (k % M) := by
        refine Finset.sum_congr rfl fun j _ => Finset.sum_congr rfl fun dh _ =>
          Finset.sum_congr rfl fun dw _ => ?_
        rw [expose_index_div _ _ _ _ _ hkM, expose_index_mod _ _ _ _ _ hkM]
    _ = ∑ dh ∈ Finset.range kh, ∑ dw ∈ Finset.range kw, ∑ j ∈ Finset.range q,
          padReadNCHW x Hin Win n ((h * sh + dh : Int) - pt) ((v * sw + dw : Int) - pl)
              (k / M * q + j)
            * w dh dw (k / M * q + j) (k % M) := by
        rw [Finset.sum_comm]
        exact Finset.sum_congr rfl fun dh _ => Finset.sum_comm
    _ = ∑ dh ∈ Finset.range kh, ∑ dw ∈ Finset.range kw, ∑ ci ∈ Finset.range q,
          padReadNCHW (splitChannelsNCHW x q (k / M)) Hin Win n
              ((h * sh + dh : Int) - pt) ((v * sw + dw : Int) - pl) ci
            * w dh dw (k / M * q + ci) (k % M) := by
        refine Finset.sum_congr rfl fun dh _ => Finset.sum_congr rfl fun dw _ =>
          Finset.sum_congr rfl fun ci _ => ?_
        rw [padRead_split_NCHW]

/-- C1: for every 4-D input whose channel count `chIn` is divisible by
`numPaths`, and with `sum_paths = False`, `GroupedConv2D` — depthwise
convolution with channel multiplier `path_ch_out`, reshape exposing
`[num_paths, ch_in/num_paths, path_ch_out]`, reduce-sum over the
per-path input-channel axis, reshape to `num_paths * path_ch_out`
channels — produces the same tensor as the reference grouped
convolution that splits the input into `numPaths` equal channel
groups, convolves group `g` with its own kernel slice of shape
`[kh, kw, chIn/numPaths, pathChOut]`, and concatenates the results
along the channel axis; stated for both NHWC and NCHW layouts. -/
theorem claim_C1 :
    (∀ (x Wval : Tensor4) (bval : Nat → Int) (inShape : List (Option Nat))
       (Hin Win P M chIn : Nat) (ks : IntOrPair) (padding : String) (stride : IntOrPair)
       (n h v k : Nat),
       inShape.getD 3 none = some chIn → 0 < P → 0 < M → chIn % P = 0 → k < P * M →
       constructed (GroupedConv2D x inShape Hin Win P M ks false padding stride
           Wval bval id false "NHWC").2 = true ∧
       okOut (GroupedConv2D x inShape Hin Win P M ks false padding stride
           Wval bval id false "NHWC").2 n h v k
         = refGroupedConvNHWC x Hin Win P M chIn ks padding stride Wval n h v k) ∧
    (∀ (x Wval : Tensor4) (bval : Nat → Int) (inShape : List (Option Nat))
       (Hin Win P M chIn : Nat) (ks : IntOrPair) (padding : String) (stride : IntOrPair)
       (n h v k : Nat),
       inShape.getD 1 none = some chIn → 0 < P → 0 < M → chIn % P = 0 → k < P * M →
       constructed (GroupedConv2D x inShape Hin Win P M ks false padding stride
           Wval bval id false "NCHW").2 = true ∧
       okOut (GroupedConv2D x inShape Hin Win P M ks false padding stride
           Wval bval id false "NCHW").2 n k h v
         = refGroupedConvNCHW x Hin Win P M chIn ks padding stride Wval n k h v) := by
  constructor
  · intro x Wval bval inShape Hin Win P M chIn ks padding stride n h v k hch hP hM hdvd hk
    have hP0 : P ≠ 0 := Nat.pos_iff_ne_zero.mp hP
    have hfmt : get_data_format "NHWC" = "NHWC" := rfl
    simp only [GroupedConv2D, hfmt, pyMod, hch, hP0, hdvd, constructed, okOut,
      refGroupedConvNHWC, chInPerPath, ite_false, ite_true, if_neg, if_pos, ne_eq,
      not_false_iff, Bool.false_eq_true, not_true, eq_self_iff_true, if_true, if_false,
      List.append_nil, List.nil_append, id_eq, and_true, true_and, not_false_eq_true]
    exact grouped_pipeline_eq_concat_NHWC x Wval Hin Win (chIn / P) M _ _ _ _ _ _ hM n h v k
  · intro x Wval bval inShape Hin Win P M chIn ks padding stride n h v k hch hP hM hdvd hk
    have hP0 : P ≠ 0 := Nat.pos_iff_ne_zero.mp hP
    have hfmt : get_data_format "NCHW" = "NCHW" := rfl
    have hne : "NCHW" ≠ "NHWC" := by simp
    simp only [GroupedConv2D, hfmt, hne, pyMod, hch, hP0, hdvd, constructed, okOut,
      refGroupedConvNCHW, chInPerPath, ite_false, ite_true, if_neg, if_pos, ne_eq,
      not_false_iff, Bool.false_eq_true, not_true, eq_self_iff_true, if_true, if_false,
      List.append_nil, List.nil_append, id_eq, and_true, true_and, not_false_eq_true]
    exact grouped_pipeline_eq_concat_NCHW x Wval Hin Win (chIn / P) M _ _ _ _ _ _ hM n h v k

/-- C7: the training entry point parses arguments first; then asserts
`args.init_channel == 64` and `args.num_classes == 1000`, aborting
before any logging setup, dataset construction, or training when
either assertion fails (the executed-step list stops at `parseArgs`);
when both hold it sets up log directories, builds the training
configuration (dataset iterators, model, callbacks), and invokes the
framework trainer last. -/
theorem claim_C7 :
    (∀ a : AnnArgs, a.init_channel ≠ 64 ∨ a.num_classes ≠ 1000 →
       (imagenetAnnMain a).1 = [MainEvent.parseArgs] ∧
       ∃ e, (imagenetAnnMain a).2 = Except.error e) ∧
    (∀ a : AnnArgs, a.init_channel = 64 → a.num_classes = 1000 →
       (imagenetAnnMain a).2 = Except.ok () ∧
       (imagenetAnnMain a).1 =
         [MainEvent.parseArgs, MainEvent.setLogRoot, MainEvent.autoSetDir,
          MainEvent.getDataTrain, MainEvent.getDataVal, MainEvent.buildModel,
          MainEvent.classificationCallbacks, MainEvent.lossSelectCallbacks,
          MainEvent.makeTrainConfig] ++
         (if a.load.isSome && a.loadExists then [MainEvent.sessionInit] else []) ++
         [MainEvent.setNrTower, MainEvent.train]) := by
  constructor
  · intro a h
    by_cases h1 : a.init_channel = 64
    · rcases h with h | h
      · exact absurd h1 h
      · simp [imagenetAnnMain, h1, h]
    · simp [imagenetAnnMain, h1]
  · intro a h1 h2
    simp [imagenetAnnMain, getConfigTrace, h1, h2]

/-- C2: `Conv2D` with `split > 1` and `GroupedConv2D` abort graph
construction via an assertion — with empty creation trace, so before
any weight variable or graph node of the layer — whenever the input
channel count is not divisible by the group count (`split`, resp.
`num_paths`); `Conv2D` additionally aborts when `filters` is not
divisible by `split`; and when the divisibility preconditions hold
(together with the branch's other stated preconditions) the checks
pass and construction returns a layer. -/
theorem claim_C2 :
    (∀ (i : Conv2DIn) (chIn : Nat), i.split ≠ 1 →
       i.inShape.getD (groupChannelAxis i.dataFormat) none = some chIn →
       chIn % i.split ≠ 0 → aborted (runConv2D i)) ∧
    (∀ i : Conv2DIn, i.split ≠ 1 → i.filters % i.split ≠ 0 →
       aborted (runConv2D i)) ∧
    (∀ (g : GroupedIn) (chIn : Nat),
       g.inShape.getD (groupChannelAxis g.dataFormat) none = some chIn →
       chIn % g.numPaths ≠ 0 → aborted (runGroupedConv2D g)) ∧
    (∀ (i : Conv2DIn) (chIn : Nat), 1 < i.split →
       i.inShape.getD (groupChannelAxis i.dataFormat) none = some chIn →
       chIn % i.split = 0 → i.filters % i.split = 0 →
       i.kernelReg = none → i.biasReg = none → i.activityReg = none →
       i.dilationRate = (1, 1) ∨ i.tfGE15 = true →
       constructed (runConv2D i).2 = true) ∧
    (∀ (g : GroupedIn) (chIn : Nat), 0 < g.numPaths →
       g.inShape.getD (groupChannelAxis g.dataFormat) none = some chIn →
       chIn % g.numPaths = 0 →
       constructed (runGroupedConv2D g).2 = true) := by
  refine ⟨?_, ?_, ?_, ?_, ?_⟩
  · intro i chIn hs hch hndvd
    by_cases hdf : get_data_format i.dataFormat = "NHWC"
    · have hch3 : i.inShape[3]?.getD none = some chIn := by
        simpa [groupChannelAxis, hdf] using hch
      by_cases hs0 : i.split = 0 <;>
        simp [runConv2D, Conv2D, aborted, pyMod, hs, hdf, hch3, hs0, hndvd]
    · have hch1 : i.inShape[1]?.getD none = some chIn := by
        simpa [groupChannelAxis, hdf] using hch
      by_cases hs0 : i.split = 0 <;>
        simp [runConv2D, Conv2D, aborted, pyMod, hs, hdf, hch1, hs0, hndvd]
  · intro i hs hfil
    by_cases hdf : get_data_format i.dataFormat = "NHWC"
    · rcases hch : i.inShape[3]?.getD none with _ | chIn
      · simp [runConv2D, Conv2D, aborted, pyMod, hs, hdf, hch]
      · by_cases hs0 : i.split = 0
        · simp [runConv2D, Conv2D, aborted, pyMod, hs, hdf, hch, hs0]
        · simp [runConv2D, Conv2D, pyMod, hs, hdf, hch, hs0, hfil]
          split_ifs <;> simp [aborted]
    · rcases hch : i.inShape[1]?.getD none with _ | chIn
      · simp [runConv2D, Conv2D, aborted, pyMod, hs, hdf, hch]
      · by_cases hs0 : i.split = 0
        · simp [runConv2D, Conv2D, aborted, pyMod, hs, hdf, hch, hs0]
        · simp [runConv2D, Conv2D, pyMod, hs, hdf, hch, hs0, hfil]
          split_ifs <;> simp [aborted]
  · intro g chIn hch hndvd
    by_cases hdf : get_data_format g.dataFormat = "NHWC"
    · have hch3 : g.inShape[3]?.getD none = some chIn := by
        simpa [groupChannelAxis, hdf] using hch
      by_cases hs0 : g.numPaths = 0 <;>
        simp [runGroupedConv2D, GroupedConv2D, aborted, pyMod, hdf, hch3, hs0, hndvd]
    · have hch1 : g.inShape[1]?.getD none = some chIn := by
        simpa [groupChannelAxis, hdf] using hch
      by_cases hs0 : g.numPaths = 0 <;>
        simp [runGroupedConv2D, GroupedConv2D, aborted, pyMod, hdf, hch1, hs0, hndvd]
  · intro i chIn hs hch hdvd hfil hkR hbR haR hdil
    have hs1 : i.split ≠ 1 := by omega
    have hs0 : i.split ≠ 0 := by omega
    by_cases hdf : get_data_format i.dataFormat = "NHWC"
    · have hch3 : i.inShape[3]?.getD none = some chIn := by
        simpa [groupChannelAxis, hdf] using hch
      rcases hdil with h | h <;>
        simp [runConv2D, Conv2D, constructed, pyMod, hs1, hs0, hdf, hch3, hdvd, hfil,
          hkR, hbR, haR, h]
    · have hch1 : i.inShape[1]?.getD none = some chIn := by
        simpa [groupChannelAxis, hdf] using hch
      rcases hdil with h | h <;>
        simp [runConv2D, Conv2D, constructed, pyMod, hs1, hs0, hdf, hch1, hdvd, hfil,
          hkR, hbR, haR, h]
  · intro g chIn hP hch hdvd
    have hP0 : g.numPaths ≠ 0 := Nat.pos_iff_ne_zero.mp hP
    by_cases hdf : get_data_format g.dataFormat = "NHWC"
    · have hch3 : g.inShape[3]?.getD none = some chIn := by
        simpa [groupChannelAxis, hdf] using hch
      simp [runGroupedConv2D, GroupedConv2D, constructed, pyMod, hP0, hdf, hch3, hdvd]
    · have hch1 : g.inShape[1]?.getD none = some chIn := by
        simpa [groupChannelAxis, hdf] using hch
      simp [runGroupedConv2D, GroupedConv2D, constructed, pyMod, hP0, hdf, hch1, hdvd]

/-- C3: for `Conv2D` with `split == 1` the returned tensor's
`info.flops` equals `in_channel * filters * kernel_h * kernel_w`,
additionally multiplied by `(H * W) / (stride_h * stride_w)` exactly
when the input's static spatial height is known and positive; when
the height is unknown or zero, flops is the base product alone.  (When
the height is known and positive but the width is unknown, the
multiplication raises and no tensor is returned at all.) -/
theorem claim_C3 :
    (∀ (i : Conv2DIn) (chIn hv wv : Nat), i.split = 1 →
       i.inShape.getD (conv2dChannelAxis i.dataFormat) none = some chIn →
       i.inShape.getD (conv2dHDim i.dataFormat) none = some hv → 0 < hv →
       i.inShape.getD (conv2dHDim i.dataFormat + 1) none = some wv →
       okInfo (runConv2D i).2
         = some ((chIn : ℚ) * i.filters * (shape2d i.kernelSize).getD 0 0
             * (shape2d i.kernelSize).getD 1 0
             * ((hv : ℚ) * wv
                / ((shape4d i.strides i.dataFormat).getD (conv2dHDim i.dataFormat) 0
                   * (shape4d i.strides i.dataFormat).getD (conv2dHDim i.dataFormat + 1) 0)))) ∧
    (∀ (i : Conv2DIn) (chIn : Nat), i.split = 1 →
       i.inShape.getD (conv2dChannelAxis i.dataFormat) none = some chIn →
       i.inShape.getD (conv2dHDim i.dataFormat) none = none ∨
         i.inShape.getD (conv2dHDim i.dataFormat) none = some 0 →
       okInfo (runConv2D i).2
         = some ((chIn : ℚ) * i.filters * (shape2d i.kernelSize).getD 0 0
             * (shape2d i.kernelSize).getD 1 0)) ∧
    (∀ (i : Conv2DIn) (chIn hv : Nat), i.split = 1 →
       i.inShape.getD (conv2dChannelAxis i.dataFormat) none = some chIn →
       i.inShape.getD (conv2dHDim i.dataFormat) none = some hv → 0 < hv →
       i.inShape.getD (conv2dHDim i.dataFormat + 1) none = none →
       constructed (runConv2D i).2 = false) := by
  refine ⟨?_, ?_, ?_⟩
  · intro i chIn hv wv hs hch hh hpos hw
    by_cases hdf : i.dataFormat = "channels_last"
    · have hch' : i.inShape[3]?.getD none = some chIn := by
        simpa [conv2dChannelAxis, hdf] using hch
      have hh' : i.inShape[1]?.getD none = some hv := by
        simpa [conv2dHDim, hdf] using hh
      have hw' : i.inShape[2]?.getD none = some wv := by
        simpa [conv2dHDim, hdf] using hw
      simp [runConv2D, Conv2D, okInfo, conv2dChannelAxis, conv2dHDim, hs, hdf,
        hch', hh', hpos, hw', div_div]
    · have hch' : i.inShape[1]?.getD none = some chIn := by
        simpa [conv2dChannelAxis, hdf] using hch
      have hh' : i.inShape[2]?.getD none = some hv := by
        simpa [conv2dHDim, hdf] using hh
      have hw' : i.inShape[3]?.getD none = some wv := by
        simpa [conv2dHDim, hdf] using hw
      simp [runConv2D, Conv2D, okInfo, conv2dChannelAxis, conv2dHDim, hs, hdf,
        hch', hh', hpos, hw', div_div]
  · intro i chIn hs hch hh
    by_cases hdf : i.dataFormat = "channels_last"
    · have hch' : i.inShape[3]?.getD none = some chIn := by
        simpa [conv2dChannelAxis, hdf] using hch
      rcases hh with hh | hh
      · have hh' : i.inShape[1]?.getD none = none := by
          simpa [conv2dHDim, hdf] using hh
        simp [runConv2D, Conv2D, okInfo, conv2dChannelAxis, conv2dHDim, hs, hdf,
          hch', hh']
      · have hh' : i.inShape[1]?.getD none = some 0 := by
          simpa [conv2dHDim, hdf] using hh
        simp [runConv2D, Conv2D, okInfo, conv2dChannelAxis, conv2dHDim, hs, hdf,
          hch', hh']
    · have hch' : i.inShape[1]?.getD none = some chIn := by
        simpa [conv2dChannelAxis, hdf] using hch
      rcases hh with hh | hh
      · have hh' : i.inShape[2]?.getD none = none := by
          simpa [conv2dHDim, hdf] using hh
        simp [runConv2D, Conv2D, okInfo, conv2dChannelAxis, conv2dHDim, hs, hdf,
          hch', hh']
      · have hh' : i.inShape[2]?.getD none = some 0 := by
          simpa [conv2dHDim, hdf] using hh
        simp [runConv2D, Conv2D, okInfo, conv2dChannelAxis, conv2dHDim, hs, hdf,
          hch', hh']
  · intro i chIn hv hs hch hh hpos hw
    by_cases hdf : i.dataFormat = "channels_last"
    · have hch' : i.inShape[3]?.getD none = some chIn := by
        simpa [conv2dChannelAxis, hdf] using hch
      have hh' : i.inShape[1]?.getD none = some hv := by
        simpa [conv2dHDim, hdf] using hh
      have hw' : i.inShape[2]?.getD none = none := by
        simpa [conv2dHDim, hdf] using hw
      simp [runConv2D, Conv2D, constructed, conv2dChannelAxis, conv2dHDim, hs, hdf,
        hch', hh', hpos, hw']
    · have hch' : i.inShape[1]?.getD none = some chIn := by
        simpa [conv2dChannelAxis, hdf] using hch
      have hh' : i.inShape[2]?.getD none = some hv := by
        simpa [conv2dHDim, hdf] using hh
      have hw' : i.inShape[3]?.getD none = none := by
        simpa [conv2dHDim, hdf] using hw
      simp [runConv2D, Conv2D, constructed, conv2dChannelAxis, conv2dHDim, hs, hdf,
        hch', hh', hpos, hw']

/-- C5: for `channels_first` input, `ResizeImages` returns the
channels-last resize conjugated by the two transposes, and for a
resize that acts independently on each batch-and-channel spatial
slice this leaves the batch and channel dimensions unchanged; for
`channels_last` the resize is applied directly with no transpose. -/
theorem claim_C5 :
    (∀ (images : Tensor4) (resize : Tensor4 → Tensor4),
       (ResizeImages images resize "channels_first").out
         = transposeToNCHW (resize (transposeToNHWC images))) ∧
    (∀ (images : Tensor4) (resize : Tensor4 → Tensor4),
       (ResizeImages images resize "channels_last").out = resize images) ∧
    (∀ (images : Tensor4) (resize : Tensor4 → Tensor4)
       (rS : (Nat → Nat → Int) → Nat → Nat → Int),
       (∀ y n a b c, resize y n a b c = rS (fun s t => y n s t c) a b) →
       ∀ n c a b,
         (ResizeImages images resize "channels_first").out n c a b
           = rS (fun s t => images n c s t) a b) := by
  refine ⟨fun images resize => rfl, ?_, ?_⟩
  · intro images resize
    simp [ResizeImages]
  · intro images resize rS hr n c a b
    have h1 : (ResizeImages images resize "channels_first").out n c a b
        = resize (transposeToNHWC images) n a b c := rfl
    rw [h1, hr]
    rfl

/-- C6: `Conv2D` with `split > 1` aborts via an assertion whenever any
of the three regularizer arguments is not `None`, whereas `Conv2D`
with `split == 1` accepts all three regularizer arguments and
forwards them to the underlying `tf.layers.Conv2D` constructor. -/
theorem claim_C6 :
    (∀ i : Conv2DIn, 1 < i.split →
       i.kernelReg.isSome = true ∨ i.biasReg.isSome = true ∨
         i.activityReg.isSome = true →
       constructed (runConv2D i).2 = false) ∧
    (∀ (i : Conv2DIn) (chIn : Nat), i.split = 1 →
       i.inShape.getD (conv2dChannelAxis i.dataFormat) none = some chIn →
       (∀ hv, i.inShape.getD (conv2dHDim i.dataFormat) none = some hv → 0 < hv →
          (i.inShape.getD (conv2dHDim i.dataFormat + 1) none).isSome = true) →
       constructed (runConv2D i).2 = true ∧
       okLayer (runConv2D i).2 = some
         { filters := i.filters, kernelSize := i.kernelSize, strides := i.strides,
           padding := i.padding, dataFormat := i.dataFormat,
           dilationRate := i.dilationRate, useBias := i.useBias,
           kernelRegularizer := i.kernelReg, biasRegularizer := i.biasReg,
           activityRegularizer := i.activityReg }) := by
  constructor
  · intro i hs hreg
    have hs1 : i.split ≠ 1 := by omega
    have hs0 : i.split ≠ 0 := by omega
    have hb : (i.kernelReg.isSome || i.biasReg.isSome || i.activityReg.isSome) = true := by
      rcases hreg with h | h | h <;> simp [h]
    by_cases hdf : get_data_format i.dataFormat = "NHWC"
    · rcases hch : i.inShape[3]?.getD none with _ | chIn
      · simp [runConv2D, Conv2D, constructed, pyMod, hs1, hs0, hdf, hch]
      · by_cases hmod : chIn % i.split = 0 <;>
          simp [runConv2D, Conv2D, constructed, pyMod, hs1, hs0, hdf, hch, hmod, hb]
    · rcases hch : i.inShape[1]?.getD none with _ | chIn
      · simp [runConv2D, Conv2D, constructed, pyMod, hs1, hs0, hdf, hch]
      · by_cases hmod : chIn % i.split = 0 <;>
          simp [runConv2D, Conv2D, constructed, pyMod, hs1, hs0, hdf, hch, hmod, hb]
  · intro i chIn hs hch hhw
    by_cases hdf : i.dataFormat = "channels_last"
    · have hch' : i.inShape[3]?.getD none = some chIn := by
        simpa [conv2dChannelAxis, hdf] using hch
      rcases hh : i.inShape[1]?.getD none with _ | hv
      · simp [runConv2D, Conv2D, constructed, okLayer, conv2dChannelAxis, conv2dHDim,
          hs, hdf, hch', hh]
      · by_cases hpos : 0 < hv
        · have hw := hhw hv (by simpa [conv2dHDim, hdf] using hh) hpos
          rcases hw2 : i.inShape[2]?.getD none with _ | wv
          · rw [show i.inShape.getD (conv2dHDim i.dataFormat + 1) none
                = i.inShape[2]?.getD none by simp [conv2dHDim, hdf], hw2] at hw
            simp at hw
          · simp [runConv2D, Conv2D, constructed, okLayer, conv2dChannelAxis,
              conv2dHDim, hs, hdf, hch', hh, hpos, hw2]
        · simp [runConv2D, Conv2D, constructed, okLayer, conv2dChannelAxis,
            conv2dHDim, hs, hdf, hch', hh, hpos]
    · have hch' : i.inShape[1]?.getD none = some chIn := by
        simpa [conv2dChannelAxis, hdf] using hch
      rcases hh : i.inShape[2]?.getD none with _ | hv
      · simp [runConv2D, Conv2D, constructed, okLayer, conv2dChannelAxis, conv2dHDim,
          hs, hdf, hch', hh]
      · by_cases hpos : 0 < hv
        · have hw := hhw hv (by simpa [conv2dHDim, hdf] using hh) hpos
          rcases hw2 : i.inShape[3]?.getD none with _ | wv
          · rw [show i.inShape.getD (conv2dHDim i.dataFormat + 1) none
                = i.inShape[3]?.getD none by simp [conv2dHDim, hdf], hw2] at hw
            simp at hw
          · simp [runConv2D, Conv2D, constructed, okLayer, conv2dChannelAxis,
              conv2dHDim, hs, hdf, hch', hh, hpos, hw2]
        · simp [runConv2D, Conv2D, constructed, okLayer, conv2dChannelAxis,
            conv2dHDim, hs, hdf, hch', hh, hpos]

/-- Shape of every successful `Conv2D` result: the output node is
named `output`, `variables` holds `W` and holds `b` exactly when
`use_bias`, `info`/`layer` are attached exactly in the `split == 1`
branch. -/
theorem conv2d_ok_shape (i : Conv2DIn) (r : LayerOut)
    (h : (runConv2D i).2 = Except.ok r) :
    r.name = "output" ∧
    (∃ v, r.vars = some v ∧ v.b = (if i.useBias then some [i.filters] else none)) ∧
    (i.split = 1 → r.info.isSome = true ∧ r.layer.isSome = true) ∧
    (i.split ≠ 1 → r.info = none ∧ r.layer = none) := by
  by_cases hs : i.split = 1
  · by_cases hdf : i.dataFormat = "channels_last"
    · rcases hch : i.inShape[3]?.getD none with _ | chIn
      · simp [runConv2D, Conv2D, conv2dChannelAxis, conv2dHDim, hs, hdf, hch] at h
      · rcases hh : i.inShape[1]?.getD none with _ | hv
        · simp [runConv2D, Conv2D, conv2dChannelAxis, conv2dHDim, hs, hdf, hch, hh] at h
          subst h
          simp [hs]
        · by_cases hpos : 0 < hv
          · rcases hw : i.inShape[2]?.getD none with _ | wv
            · simp [runConv2D, Conv2D, conv2dChannelAxis, conv2dHDim, hs, hdf, hch,
                hh, hpos, hw] at h
            · simp [runConv2D, Conv2D, conv2dChannelAxis, conv2dHDim, hs, hdf, hch,
                hh, hpos, hw] at h
              subst h
              simp [hs]
          · simp [runConv2D, Conv2D, conv2dChannelAxis, conv2dHDim, hs, hdf, hch,
              hh, hpos] at h
            subst h
            simp [hs]
    · rcases hch : i.inShape[1]?.getD none with _ | chIn
      · simp [runConv2D, Conv2D, conv2dChannelAxis, conv2dHDim, hs, hdf, hch] at h
      · rcases hh : i.inShape[2]?.getD none with _ | hv
        · simp [runConv2D, Conv2D, conv2dChannelAxis, conv2dHDim, hs, hdf, hch, hh] at h
          subst h
          simp [hs]
        · by_cases hpos : 0 < hv
          · rcases hw : i.inShape[3]?.getD none with _ | wv
            · simp [runConv2D, Conv2D, conv2dChannelAxis, conv2dHDim, hs, hdf, hch,
                hh, hpos, hw] at h
            · simp [runConv2D, Conv2D, conv2dChannelAxis, conv2dHDim, hs, hdf, hch,
                hh, hpos, hw] at h
              subst h
              simp [hs]
          · simp [runConv2D, Conv2D, conv2dChannelAxis, conv2dHDim, hs, hdf, hch,
              hh, hpos] at h
            subst h
            simp [hs]
  · by_cases hdf : get_data_format i.dataFormat = "NHWC"
    · rcases hch : i.inShape[3]?.getD none with _ | chIn
      · simp [runConv2D, Conv2D, hs, hdf, hch] at h
      · by_cases h0 : i.split = 0
        · simp [runConv2D, Conv2D, pyMod, hs, hdf, hch, h0] at h
        · by_cases hmod : chIn % i.split = 0
          · by_cases hreg : (i.kernelReg.isSome || i.biasReg.isSome ||
              i.activityReg.isSome) = true
            · simp [runConv2D, Conv2D, pyMod, hs, hdf, hch, h0, hmod, hreg] at h
            · have hreg' : (i.kernelReg.isSome || i.biasReg.isSome ||
                  i.activityReg.isSome) = false := by simpa using hreg
              by_cases hfil : i.filters % i.split = 0
              · by_cases hdil : i.dilationRate = (1, 1) ∨ i.tfGE15 = true
                · rcases hdil with hd | hd
                  · simp [runConv2D, Conv2D, pyMod, hs, hdf, hch, h0, hmod, hreg',
                      hfil, hd] at h
                    subst h
                    simp [hs]
                  · simp [runConv2D, Conv2D, pyMod, hs, hdf, hch, h0, hmod, hreg',
                      hfil, hd] at h
                    subst h
                    simp [hs]
                · push_neg at hdil
                  obtain ⟨hd1, hd2⟩ := hdil
                  have hd2' : i.tfGE15 = false := by simpa using hd2
                  have hd1' : i.dilationRate ≠ 1 := by simpa using hd1
                  simp [runConv2D, Conv2D, pyMod, hs, hdf, hch, h0, hmod, hreg',
                    hfil, hd1', hd2'] at h
              · simp [runConv2D, Conv2D, pyMod, hs, hdf, hch, h0, hmod, hreg',
                  hfil] at h
          · simp [runConv2D, Conv2D, pyMod, hs, hdf, hch, h0, hmod] at h
    · rcases hch : i.inShape[1]?.getD none with _ | chIn
      · simp [runConv2D, Conv2D, hs, hdf, hch] at h
      · by_cases h0 : i.split = 0
        · simp [runConv2D, Conv2D, pyMod, hs, hdf, hch, h0] at h
        · by_cases hmod : chIn % i.split = 0
          · by_cases hreg : (i.kernelReg.isSome || i.biasReg.isSome ||
              i.activityReg.isSome) = true
            · simp [runConv2D, Conv2D, pyMod, hs, hdf, hch, h0, hmod, hreg] at h
            · have hreg' : (i.kernelReg.isSome || i.biasReg.isSome ||
                  i.activityReg.isSome) = false := by simpa using hreg
              by_cases hfil : i.filters % i.split = 0
              · by_cases hdil : i.dilationRate = (1, 1) ∨ i.tfGE15 = true
                · rcases hdil with hd | hd
                  · simp [runConv2D, Conv2D, pyMod, hs, hdf, hch, h0, hmod, hreg',
                      hfil, hd] at h
                    subst h
                    simp [hs]
                  · simp [runConv2D, Conv2D, pyMod, hs, hdf, hch, h0, hmod, hreg',
                      hfil, hd] at h
                    subst h
                    simp [hs]
                · push_neg at hdil
                  obtain ⟨hd1, hd2⟩ := hdil
                  have hd2' : i.tfGE15 = false := by simpa using hd2
                  have hd1' : i.dilationRate ≠ 1 := by simpa using hd1
                  simp [runConv2D, Conv2D, pyMod, hs, hdf, hch, h0, hmod, hreg',
                    hfil, hd1', hd2'] at h
              · simp [runConv2D, Conv2D, pyMod, hs, hdf, hch, h0, hmod, hreg',
                  hfil] at h
          · simp [runConv2D, Conv2D, pyMod, hs, hdf, hch, h0, hmod] at h

/-- Shape of every successful `GroupedConv2D` result. -/
theorem grouped_ok_shape (g : GroupedIn) (r : LayerOut)
    (h : (runGroupedConv2D g).2 = Except.ok r) :
    r.name = "output" ∧
    (∃ v, r.vars = some v ∧ v.b = (if g.useBias then
       some [if g.sumPaths then g.pathChOut else g.numPaths * g.pathChOut]
       else none)) ∧
    r.info = none := by
  by_cases hdf : get_data_format g.dataFormat = "NHWC"
  · rcases hch : g.inShape[3]?.getD none with _ | chIn
    · simp [runGroupedConv2D, GroupedConv2D, hdf, hch] at h
    · by_cases h0 : g.numPaths = 0
      · simp [runGroupedConv2D, GroupedConv2D, pyMod, hdf, hch, h0] at h
      · by_cases hmod : chIn % g.numPaths = 0
        · simp [runGroupedConv2D, GroupedConv2D, pyMod, hdf, hch, h0, hmod] at h
          subst h
          simp
        · simp [runGroupedConv2D, GroupedConv2D, pyMod, hdf, hch, h0, hmod] at h
  · rcases hch : g.inShape[1]?.getD none with _ | chIn
    · simp [runGroupedConv2D, GroupedConv2D, hdf, hch] at h
    · by_cases h0 : g.numPaths = 0
      · simp [runGroupedConv2D, GroupedConv2D, pyMod, hdf, hch, h0] at h
      · by_cases hmod : chIn % g.numPaths = 0
        · simp [runGroupedConv2D, GroupedConv2D, pyMod, hdf, hch, h0, hmod] at h
          subst h
          simp
        · simp [runGroupedConv2D, GroupedConv2D, pyMod, hdf, hch, h0, hmod] at h

/-- C8: in the group-convolution branch of `Conv2D` (`split > 1`),
for every input channel count divisible by `split`, the weight `W` is
created with shape `[kernel_h, kernel_w, q, filters]` where `q` is the
exact integer quotient of the channel count by `split` — the same
integer quotient `ch_in // num_paths` (`chInPerPath`) that
`GroupedConv2D` uses for its per-path channel count. -/
theorem claim_C8 :
    ∀ (i : Conv2DIn) (chIn : Nat), 1 < i.split →
      i.inShape.getD (groupChannelAxis i.dataFormat) none = some chIn →
      i.split ∣ chIn →
      constructed (runConv2D i).2 = true →
      okVars (runConv2D i).2
        = some ⟨shape2d i.kernelSize ++ [chInPerPath chIn i.split, i.filters],
                if i.useBias then some [i.filters] else none⟩ ∧
      chInPerPath chIn i.split * i.split = chIn := by
  intro i chIn hs hch hdvd hcon
  have hs1 : i.split ≠ 1 := by omega
  have hs0 : i.split ≠ 0 := by omega
  obtain ⟨c, hc⟩ := hdvd
  have hmod : chIn % i.split = 0 := by
    rw [hc]
    exact Nat.mul_mod_right i.split c
  have hexact : chInPerPath chIn i.split * i.split = chIn := by
    rw [hc, chInPerPath, Nat.mul_div_cancel_left c (by omega), Nat.mul_comm]
  refine ⟨?_, hexact⟩
  by_cases hdf : get_data_format i.dataFormat = "NHWC"
  · have hch' : i.inShape[3]?.getD none = some chIn := by
      simpa [groupChannelAxis, hdf] using hch
    by_cases hreg : (i.kernelReg.isSome || i.biasReg.isSome ||
        i.activityReg.isSome) = true
    · simp [runConv2D, Conv2D, constructed, pyMod, hs1, hs0, hdf, hch', hmod,
        hreg] at hcon
    · have hreg' : (i.kernelReg.isSome || i.biasReg.isSome ||
          i.activityReg.isSome) = false := by simpa using hreg
      by_cases hfil : i.filters % i.split = 0
      · by_cases hdil : i.dilationRate = (1, 1) ∨ i.tfGE15 = true
        · rcases hdil with hd | hd <;>
            simp [runConv2D, Conv2D, okVars, chInPerPath, pyMod, hs1, hs0, hdf,
              hch', hmod, hreg', hfil, hd]
        · push_neg at hdil
          obtain ⟨hd1, hd2⟩ := hdil
          have hd2' : i.tfGE15 = false := by simpa using hd2
          have hd1' : i.dilationRate ≠ 1 := by simpa using hd1
          simp [runConv2D, Conv2D, constructed, pyMod, hs1, hs0, hdf, hch', hmod,
            hreg', hfil, hd1', hd2'] at hcon
      · simp [runConv2D, Conv2D, constructed, pyMod, hs1, hs0, hdf, hch', hmod,
          hreg', hfil] at hcon
  · have hch' : i.inShape[1]?.getD none = some chIn := by
      simpa [groupChannelAxis, hdf] using hch
    by_cases hreg : (i.kernelReg.isSome || i.biasReg.isSome ||
        i.activityReg.isSome) = true
    · simp [runConv2D, Conv2D, constructed, pyMod, hs1, hs0, hdf, hch', hmod,
        hreg] at hcon
    · have hreg' : (i.kernelReg.isSome || i.biasReg.isSome ||
          i.activityReg.isSome) = false := by simpa using hreg
      by_cases hfil : i.filters % i.split = 0
      · by_cases hdil : i.dilationRate = (1, 1) ∨ i.tfGE15 = true
        · rcases hdil with hd | hd <;>
            simp [runConv2D, Conv2D, okVars, chInPerPath, pyMod, hs1, hs0, hdf,
              hch', hmod, hreg', hfil, hd]
        · push_neg at hdil
          obtain ⟨hd1, hd2⟩ := hdil
          have hd2' : i.tfGE15 = false := by simpa using hd2
          have hd1' : i.dilationRate ≠ 1 := by simpa using hd1
          simp [runConv2D, Conv2D, constructed, pyMod, hs1, hs0, hdf, hch', hmod,
            hreg', hfil, hd1', hd2'] at hcon
      · simp [runConv2D, Conv2D, constructed, pyMod, hs1, hs0, hdf, hch', hmod,
          hreg', hfil] at hcon

/-- C9: `Conv2D` attaches a flop count (`ret.info`) to its output
tensor only in the `split == 1` branch; every successful call with
`split > 1` returns a tensor carrying `variables` (`W`, and `b` iff
`use_bias`) but no `info` attribute. -/
theorem claim_C9 :
    (∀ (i : Conv2DIn) (r : LayerOut), i.split = 1 →
       (runConv2D i).2 = Except.ok r → r.info.isSome = true) ∧
    (∀ (i : Conv2DIn) (r : LayerOut), 1 < i.split →
       (runConv2D i).2 = Except.ok r →
       r.info = none ∧ ∃ v, r.vars = some v ∧ v.b.isSome = i.useBias) := by
  constructor
  · intro i r hs h
    exact ((conv2d_ok_shape i r h).2.2.1 hs).1
  · intro i r hs h
    obtain ⟨-, ⟨v, hv1, hv2⟩, -, h2⟩ := conv2d_ok_shape i r h
    refine ⟨(h2 (by omega)).1, v, hv1, ?_⟩
    rw [hv2]
    cases i.useBias <;> simp

/-- C10: every successful call to `Conv2D`, `Conv2DTranspose`, or
`GroupedConv2D` returns a tensor named `output` whose `variables`
attribute holds the weight `W`, and holds the bias `b` if and only if
`use_bias`; `ResizeImages` likewise names its result `output` but
attaches no `variables` attribute. -/
theorem claim_C10 :
    (∀ (i : Conv2DIn) (r : LayerOut), (runConv2D i).2 = Except.ok r →
       r.name = "output" ∧ ∃ v, r.vars = some v ∧ v.b.isSome = i.useBias) ∧
    (∀ (x : Tensor4) (filters : Nat) (ksz : IntOrPair) (useBias : Bool)
       (inCh : Nat) (applyL : Tensor4 → Tensor4),
       (Conv2DTranspose x filters ksz useBias inCh applyL).name = "output" ∧
       ∃ v, (Conv2DTranspose x filters ksz useBias inCh applyL).vars = some v ∧
         v.b.isSome = useBias) ∧
    (∀ (g : GroupedIn) (r : LayerOut), (runGroupedConv2D g).2 = Except.ok r →
       r.name = "output" ∧ ∃ v, r.vars = some v ∧ v.b.isSome = g.useBias) ∧
    (∀ (images : Tensor4) (resize : Tensor4 → Tensor4) (dataFormat : String),
       (ResizeImages images resize dataFormat).name = "output" ∧
       (ResizeImages images resize dataFormat).vars = none) := by
  refine ⟨?_, ?_, ?_, fun images resize dataFormat => ⟨rfl, rfl⟩⟩
  · intro i r h
    obtain ⟨h1, ⟨v, hv1, hv2⟩, -, -⟩ := conv2d_ok_shape i r h
    refine ⟨h1, v, hv1, ?_⟩
    rw [hv2]
    cases i.useBias <;> simp
  · intro x filters ksz useBias inCh applyL
    refine ⟨rfl, ⟨_, rfl, ?_⟩⟩
    cases useBias <;> simp [Conv2DTranspose]
  · intro g r h
    obtain ⟨h1, ⟨v, hv1, hv2⟩, -⟩ := grouped_ok_shape g r h
    refine ⟨h1, v, hv1, ?_⟩
    rw [hv2]
    cases g.useBias <;> simp

/-- C4: `Conv2D` with `split = s > 1` partitions the input into `s`
equal channel groups and the weight `W` into `s` slices along its
fourth (output-channel) axis, convolves group `g` with slice `g`
independently of every other group, concatenates the per-group
outputs along the channel axis (output channel `k` comes from group
`k / (filters/s)` at its local channel `k % (filters/s)`), adds the
bias iff `use_bias`, and applies the activation (the identity when
`None`); stated for both data formats. -/
theorem claim_C4 :
    (∀ (i : Conv2DIn) (r : LayerOut) (chIn q mOut kh kw sh sw pt pl : Nat),
       1 < i.split →
       i.dataFormat = "channels_last" →
       i.inShape.getD 3 none = some chIn →
       chIn = i.split * q →
       i.filters = i.split * mOut →
       kh = (shape2d i.kernelSize).getD 0 0 →
       kw = (shape2d i.kernelSize).getD 1 0 →
       sh = (shape4d i.strides "NHWC").getD 1 0 →
       sw = (shape4d i.strides "NHWC").getD 2 0 →
       pt = padBegin i.padding.toUpper i.Hin kh sh →
       pl = padBegin i.padding.toUpper i.Win kw sw →
       (runConv2D i).2 = Except.ok r →
       ∀ n h v k, k < i.filters →
         r.out n h v k
           = (i.activation.getD id)
               (conv2dNHWC (splitChannelsNHWC i.x q (k / mOut)) i.Hin i.Win q
                  (kernelSliceAxis3 i.Wval mOut (k / mOut)) kh kw sh sw pt pl
                  n h v (k % mOut)
                + (if i.useBias then i.bval k else 0))) ∧
    (∀ (i : Conv2DIn) (r : LayerOut) (chIn q mOut kh kw sh sw pt pl : Nat),
       1 < i.split →
       i.dataFormat = "channels_first" →
       i.inShape.getD 1 none = some chIn →
       chIn = i.split * q →
       i.filters = i.split * mOut →
       kh = (shape2d i.kernelSize).getD 0 0 →
       kw = (shape2d i.kernelSize).getD 1 0 →
       sh = (shape4d i.strides "NCHW").getD 2 0 →
       sw = (shape4d i.strides "NCHW").getD 3 0 →
       pt = padBegin i.padding.toUpper i.Hin kh sh →
       pl = padBegin i.padding.toUpper i.Win kw sw →
       (runConv2D i).2 = Except.ok r →
       ∀ n h v k, k < i.filters →
         r.out n k h v
           = (i.activation.getD id)
               (conv2dNCHW (splitChannelsNCHW i.x q (k / mOut)) i.Hin i.Win q
                  (kernelSliceAxis3 i.Wval mOut (k / mOut)) kh kw sh sw pt pl
                  n (k % mOut) h v
                + (if i.useBias then i.bval k else 0))) := by
  constructor
  all_goals
    intro i r chIn q mOut kh kw sh sw pt pl hs hdf0 hch0 hcq hcf hkh hkw hsh hsw
      hpt hpl h n h2 v k hk
  all_goals subst hkh hkw hsh hsw hpt hpl
  all_goals have hs1 : i.split ≠ 1 := by omega
  all_goals have hs0 : i.split ≠ 0 := by omega
  all_goals
    have hmod : chIn % i.split = 0 := by
      rw [hcq]
      exact Nat.mul_mod_right i.split q
  all_goals
    have hq' : chIn / i.split = q := by
      rw [hcq]
      exact Nat.mul_div_cancel_left q (by omega)
  all_goals
    have hm' : i.filters / i.split = mOut := by
      rw [hcf]
      exact Nat.mul_div_cancel_left mOut (by omega)
  · have hdf : get_data_format i.dataFormat = "NHWC" := by simp [get_data_format, hdf0]
    have hch' : i.inShape[3]?.getD none = some chIn := by simpa using hch0
    by_cases hreg : (i.kernelReg.isSome || i.biasReg.isSome ||
        i.activityReg.isSome) = true
    · simp [runConv2D, Conv2D, pyMod, hs1, hs0, hdf, hch', hmod, hreg] at h
    · have hreg' : (i.kernelReg.isSome || i.biasReg.isSome ||
          i.activityReg.isSome) = false := by simpa using hreg
      by_cases hfil : i.filters % i.split = 0
      · by_cases hdil : i.dilationRate = (1, 1) ∨ i.tfGE15 = true
        · rcases hdil with hd | hd <;>
          · simp [runConv2D, Conv2D, pyMod, hs1, hs0, hdf, hch', hmod, hreg',
              hfil, hd] at h
            subst h
            cases hub : i.useBias <;>
              simp [hq', hm', concatChannelsNHWC, biasAddNHWC, hub]
        · push_neg at hdil
          obtain ⟨hd1, hd2⟩ := hdil
          have hd2' : i.tfGE15 = false := by simpa using hd2
          have hd1' : i.dilationRate ≠ 1 := by simpa using hd1
          simp [runConv2D, Conv2D, pyMod, hs1, hs0, hdf, hch', hmod, hreg',
            hfil, hd1', hd2'] at h
      · simp [runConv2D, Conv2D, pyMod, hs1, hs0, hdf, hch', hmod, hreg', hfil] at h
  · have hdf : get_data_format i.dataFormat = "NCHW" := by simp [get_data_format, hdf0]
    have hdfn : ¬ get_data_format i.dataFormat = "NHWC" := by simp [hdf]
    have hch' : i.inShape[1]?.getD none = some chIn := by simpa using hch0
    by_cases hreg : (i.kernelReg.isSome || i.biasReg.isSome ||
        i.activityReg.isSome) = true
    · simp [runConv2D, Conv2D, pyMod, hs1, hs0, hdf, hdfn, hch', hmod, hreg] at h
    · have hreg' : (i.kernelReg.isSome || i.biasReg.isSome ||
          i.activityReg.isSome) = false := by simpa using hreg
      by_cases hfil : i.filters % i.split = 0
      · by_cases hdil : i.dilationRate = (1, 1) ∨ i.tfGE15 = true
        · rcases hdil with hd | hd <;>
          · simp [runConv2D, Conv2D, pyMod, hs1, hs0, hdf, hdfn, hch', hmod, hreg',
              hfil, hd] at h
            subst h
            cases hub : i.useBias <;>
              simp [hq', hm', concatChannelsNCHW, biasAddNCHW, hub]
        · push_neg at hdil
          obtain ⟨hd1, hd2⟩ := hdil
          have hd2' : i.tfGE15 = false := by simpa using hd2
          have hd1' : i.dilationRate ≠ 1 := by simpa using hd1
          simp [runConv2D, Conv2D, pyMod, hs1, hs0, hdf, hdfn, hch', hmod, hreg',
            hfil, hd1', hd2'] at h
      · simp [runConv2D, Conv2D, pyMod, hs1, hs0, hdf, hdfn, hch', hmod, hreg',
          hfil] at h

/-- Witness for C1 at a concrete `[N, 1, 1, 2]` (resp. `[N, 2, 1, 1]`)
input with two paths. -/
theorem claim_C1_witness :
    (constructed (GroupedConv2D oneT [none, some 1, some 1, some 2] 1 1 2 1
        (.int 1) false "SAME" (.int 1) oneT zeroB id false "NHWC").2 = true ∧
     okOut (GroupedConv2D oneT [none, some 1, some 1, some 2] 1 1 2 1
        (.int 1) false "SAME" (.int 1) oneT zeroB id false "NHWC").2 0 0 0 1
       = refGroupedConvNHWC oneT 1 1 2 1 2 (.int 1) "SAME" (.int 1) oneT 0 0 0 1) ∧
    (constructed (GroupedConv2D oneT [none, some 2, some 1, some 1] 1 1 2 1
        (.int 1) false "SAME" (.int 1) oneT zeroB id false "NCHW").2 = true ∧
     okOut (GroupedConv2D oneT [none, some 2, some 1, some 1] 1 1 2 1
        (.int 1) false "SAME" (.int 1) oneT zeroB id false "NCHW").2 0 1 0 0
       = refGroupedConvNCHW oneT 1 1 2 1 2 (.int 1) "SAME" (.int 1) oneT 0 1 0 0) :=
  ⟨claim_C1.1 oneT oneT zeroB [none, some 1, some 1, some 2] 1 1 2 1 2 (.int 1)
      "SAME" (.int 1) 0 0 0 1 rfl (by decide) (by decide) (by decide) (by decide),
   claim_C1.2 oneT oneT zeroB [none, some 2, some 1, some 1] 1 1 2 1 2 (.int 1)
      "SAME" (.int 1) 0 0 0 1 rfl (by decide) (by decide) (by decide) (by decide)⟩

/-- Witness for C2: the indivisible samples abort with nothing
created, the divisible samples construct. -/
theorem claim_C2_witness :
    aborted (runConv2D convSampleBad) ∧
    aborted (runGroupedConv2D groupedSampleBad) ∧
    constructed (runConv2D convSample2).2 = true ∧
    constructed (runGroupedConv2D groupedSample).2 = true :=
  ⟨claim_C2.1 convSampleBad 4 (by decide) rfl (by decide),
   claim_C2.2.2.1 groupedSampleBad 4 rfl (by decide),
   claim_C2.2.2.2.1 convSample2 4 (by decide) rfl (by decide) (by decide) rfl rfl rfl
     (Or.inl rfl),
   claim_C2.2.2.2.2 groupedSample 4 (by decide) rfl (by decide)⟩

/-- Witness for C5 at a channelwise identity resize. -/
theorem claim_C5_witness :
    (ResizeImages oneT idResize "channels_first").out 0 2 1 1
      = idSpatial (fun s t => oneT 0 2 s t) 1 1 :=
  claim_C5.2.2 oneT idResize idSpatial (fun _ _ _ _ _ => rfl) 0 2 1 1

/-- Witness for C7 at concrete argument records. -/
theorem claim_C7_witness :
    ((imagenetAnnMain annArgsBad).1 = [MainEvent.parseArgs] ∧
     ∃ e, (imagenetAnnMain annArgsBad).2 = Except.error e) ∧
    ((imagenetAnnMain annArgsOk).2 = Except.ok () ∧
     (imagenetAnnMain annArgsOk).1 =
       [MainEvent.parseArgs, MainEvent.setLogRoot, MainEvent.autoSetDir,
        MainEvent.getDataTrain, MainEvent.getDataVal, MainEvent.buildModel,
        MainEvent.classificationCallbacks, MainEvent.lossSelectCallbacks,
        MainEvent.makeTrainConfig] ++
       (if annArgsOk.load.isSome && annArgsOk.loadExists
        then [MainEvent.sessionInit] else []) ++
       [MainEvent.setNrTower, MainEvent.train]) :=
  ⟨claim_C7.1 annArgsBad (Or.inl (by decide)), claim_C7.2 annArgsOk rfl rfl⟩

/-- Witness for C3: `3·4·1·1·(2·2/(1·1)) = 48` with known spatial
shape, `3·4·1·1 = 12` with zero height, and a construction failure
with known height but unknown width. -/
theorem claim_C3_witness :
    okInfo (runConv2D convSample1).2 = some 48 ∧
    okInfo (runConv2D convSampleH0).2 = some 12 ∧
    constructed (runConv2D convSampleWNone).2 = false := by
  refine ⟨?_, ?_, ?_⟩
  · have h := claim_C3.1 convSample1 3 2 2 rfl rfl rfl (by decide) rfl
    rw [h]
    norm_num [convSample1, shape2d, shape4d, get_data_format, conv2dHDim]
  · have h := claim_C3.2.1 convSampleH0 3 rfl rfl (Or.inr rfl)
    rw [h]
    norm_num [convSampleH0, convSample1, shape2d]
  · exact claim_C3.2.2 convSampleWNone 3 2 rfl rfl rfl (by decide) rfl

/-- Witness for C4 at output channel 3 of the concrete group conv. -/
theorem claim_C4_witness :
    okOut (runConv2D convSample2).2 0 0 0 3
      = (convSample2.activation.getD id)
          (conv2dNHWC (splitChannelsNHWC convSample2.x 2 (3 / 2)) convSample2.Hin
             convSample2.Win 2 (kernelSliceAxis3 convSample2.Wval 2 (3 / 2))
             ((shape2d convSample2.kernelSize).getD 0 0)
             ((shape2d convSample2.kernelSize).getD 1 0)
             ((shape4d convSample2.strides "NHWC").getD 1 0)
             ((shape4d convSample2.strides "NHWC").getD 2 0)
             (padBegin convSample2.padding.toUpper convSample2.Hin
               ((shape2d convSample2.kernelSize).getD 0 0)
               ((shape4d convSample2.strides "NHWC").getD 1 0))
             (padBegin convSample2.padding.toUpper convSample2.Win
               ((shape2d convSample2.kernelSize).getD 1 0)
               ((shape4d convSample2.strides "NHWC").getD 2 0))
             0 0 0 (3 % 2)
           + (if convSample2.useBias then convSample2.bval 3 else 0)) := by
  rcases hE : (runConv2D convSample2).2 with e | r
  · have hcon : constructed (runConv2D convSample2).2 = true := rfl
    rw [hE] at hcon
    simp [constructed] at hcon
  · have h4 := claim_C4.1 convSample2 r 4 2 2 _ _ _ _ _ _ (by decide) rfl rfl rfl
      rfl rfl rfl rfl rfl rfl rfl hE 0 0 0 3 (by decide)
    exact h4

/-- Witness for C6: a regularizer aborts the group conv, while the
`split = 1` sample forwards all three regularizers. -/
theorem claim_C6_witness :
    constructed (runConv2D convSampleReg).2 = false ∧
    (constructed (runConv2D convSample1).2 = true ∧
     okLayer (runConv2D convSample1).2 = some
       { filters := convSample1.filters, kernelSize := convSample1.kernelSize,
         strides := convSample1.strides, padding := convSample1.padding,
         dataFormat := convSample1.dataFormat,
         dilationRate := convSample1.dilationRate, useBias := convSample1.useBias,
         kernelRegularizer := convSample1.kernelReg,
         biasRegularizer := convSample1.biasReg,
         activityRegularizer := convSample1.activityReg }) :=
  ⟨claim_C6.1 convSampleReg (by decide) (Or.inl rfl),
   claim_C6.2 convSample1 3 rfl rfl (fun _ _ _ => rfl)⟩

/-- Witness for C8 at the concrete group conv (`4 // 2 = 2`). -/
theorem claim_C8_witness :
    okVars (runConv2D convSample2).2
      = some ⟨shape2d convSample2.kernelSize ++ [chInPerPath 4 convSample2.split,
              convSample2.filters],
              if convSample2.useBias then some [convSample2.filters] else none⟩ ∧
    chInPerPath 4 convSample2.split * convSample2.split = 4 :=
  claim_C8 convSample2 4 (by decide) rfl ⟨2, rfl⟩ rfl

/-- Witness for C9 at the two concrete Conv2D samples. -/
theorem claim_C9_witness :
    (okInfo (runConv2D convSample1).2).isSome = true ∧
    okInfo (runConv2D convSample2).2 = none ∧
    ∃ v, okVars (runConv2D convSample2).2 = some v ∧
      v.b.isSome = convSample2.useBias := by
  refine ⟨?_, ?_⟩
  · rcases hE : (runConv2D convSample1).2 with e | r
    · have hcon : constructed (runConv2D convSample1).2 = true := rfl
      rw [hE] at hcon
      simp [constructed] at hcon
    · have h := claim_C9.1 convSample1 r rfl hE
      exact h
  · rcases hE : (runConv2D convSample2).2 with e | r
    · have hcon : constructed (runConv2D convSample2).2 = true := rfl
      rw [hE] at hcon
      simp [constructed] at hcon
    · obtain ⟨h1, v, hv1, hv2⟩ := claim_C9.2 convSample2 r (by decide) hE
      exact ⟨h1, v, hv1, hv2⟩

/-- Witness for C10 at the four layer kinds. -/
theorem claim_C10_witness :
    ((Conv2DTranspose oneT 4 (.int 3) true 2 idResize).name = "output" ∧
     ∃ v, (Conv2DTranspose oneT 4 (.int 3) true 2 idResize).vars = some v ∧
       v.b.isSome = true) ∧
    ((ResizeImages oneT idResize "channels_last").name = "output" ∧
     (ResizeImages oneT idResize "channels_last").vars = none) ∧
    okName (runConv2D convSample1).2 = "output" ∧
    okName (runGroupedConv2D groupedSample).2 = "output" := by
  refine ⟨claim_C10.2.1 oneT 4 (.int 3) true 2 idResize,
          claim_C10.2.2.2 oneT idResize "channels_last", ?_, ?_⟩
  · rcases hE : (runConv2D convSample1).2 with e | r
    · have hcon : constructed (runConv2D convSample1).2 = true := rfl
      rw [hE] at hcon
      simp [constructed] at hcon
    · have h := claim_C10.1 convSample1 r hE
      exact h.1
  · rcases hE : (runGroupedConv2D groupedSample).2 with e | r
    · have hcon : constructed (runGroupedConv2D groupedSample).2 = true := rfl
      rw [hE] at hcon
      simp [constructed] at hcon
    · have h := claim_C10.2.2.1 groupedSample r hE
      exact h.1

end AnnConv
